import Mathlib

/-!
Verification development for the scholarmine batch runner
(`scholarmine/runner.py`, `scholarmine/ip_tracker.py`, `scholarmine/cli.py`).

The Python source is shallowly embedded: every definition below mirrors a
function or code path of the repository, with file/line references in the
doc comments.  Mutable objects become explicit state values, timestamps
become `Nat` ticks, and the thread-interleaved code is modelled as the
sequential execution of one worker (the source guards each shared resource
with its own lock, so each operation below corresponds to one critical
section).
-/

namespace ScholarMine

/-! ## Usage ledger (`ip_tracker.py`, class `IPTracker`) -/

/-- One entry of `ip_details[ip]["usage_history"]` (ip_tracker.py lines 75-81). -/
structure HistoryEntry where
  researcher : String
  timestamp : Nat
  thread_id : Option Nat

/-- The per-identity record stored in `ip_details` (ip_tracker.py lines 69-84). -/
structure IpDetail where
  first_used : Nat
  usage_history : List HistoryEntry
  last_used : Nat
  total_usage : Nat

/-- In-memory state of `IPTracker`: the `ip_usage` defaultdict (unseen keys
count 0) and the `ip_details` dict (ip_tracker.py lines 18-19). -/
structure IPTrackerState where
  ip_usage : String → Nat
  ip_details : String → Option IpDetail

/-- Contents of the tracker file written by `save_to_file`
(ip_tracker.py lines 91-99); only the reloadable fields matter. -/
structure SavedTracker where
  ip_usage : String → Nat
  ip_details : String → Option IpDetail

/-- Model of `IPTracker.save_to_file` (ip_tracker.py lines 91-107): serializes the
current counters and details; mutates nothing. -/
def save_to_file (s : IPTrackerState) : SavedTracker :=
  { ip_usage := s.ip_usage, ip_details := s.ip_details }

/-- Model of `IPTracker.load_existing_data` at construction (ip_tracker.py lines
23-37): if the backing file is absent (or unparsable) start from empty
defaultdicts, otherwise adopt the persisted counters. -/
def load_existing_data (file : Option SavedTracker) : IPTrackerState :=
  match file with
  | none => { ip_usage := fun _ => 0, ip_details := fun _ => none }
  | some d => { ip_usage := d.ip_usage, ip_details := d.ip_details }

/-- Model of `IPTracker.log_successful_scrape` (ip_tracker.py lines 53-89): a falsy
(empty) address is rejected with a warning; otherwise the counter for the
address is incremented by one, the detail record is created on first use,
a history entry is appended and last-seen/total are refreshed. -/
def log_successful_scrape (s : IPTrackerState) (researcher_name ip_address : String)
    (thread_id : Option Nat) (now : Nat) : IPTrackerState :=
  if ip_address = "" then s
  else
    let newCount := s.ip_usage ip_address + 1
    let detail : IpDetail :=
      match s.ip_details ip_address with
      | none => { first_used := now, usage_history := [], last_used := now, total_usage := 0 }
      | some d => d
    let detail2 : IpDetail :=
      { detail with
        usage_history := detail.usage_history ++ [⟨researcher_name, now, thread_id⟩],
        last_used := now,
        total_usage := newCount }
    { ip_usage := fun ip => if ip = ip_address then newCount else s.ip_usage ip,
      ip_details := fun ip => if ip = ip_address then some detail2 else s.ip_details ip }

/-- Model of `IPTracker.get_ip_usage_count` (ip_tracker.py lines 154-159): 0 for a
falsy address, else the stored counter (0 if unseen). -/
def get_ip_usage_count (s : IPTrackerState) (ip_address : Option String) : Nat :=
  match ip_address with
  | none => 0
  | some ip => if ip = "" then 0 else s.ip_usage ip

/-- The ledger operations performed during a run: `log_successful_scrape`,
`get_usage_stats` (read-only, ip_tracker.py lines 109-122) and
`save_to_file` (read-only serialization). -/
inductive LedgerOp where
  | record (researcher ip : String) (thread_id : Option Nat) (now : Nat)
  | stats
  | persist

/-- Effect of one ledger operation on the in-memory state: only
`log_successful_scrape` mutates; stats and persist are pure reads. -/
def applyLedgerOp (s : IPTrackerState) : LedgerOp → IPTrackerState
  | .record r ip t now => log_successful_scrape s r ip t now
  | .stats => s
  | .persist => s

/-- A sequence of ledger operations applied in order. -/
def applyLedgerOps (s : IPTrackerState) : List LedgerOp → IPTrackerState
  | [] => s
  | op :: ops => applyLedgerOps (applyLedgerOp s op) ops

/-! ## Checkpoint store (`runner.py`, progress tracking) -/

/-- The `counts` sub-dictionary of the progress snapshot
(runner.py lines 365-370 and 401-406). -/
structure Counts where
  pending : Nat
  success : Nat
  failed_retrying : Nat
  failed_exhausted : Nat
deriving Repr, DecidableEq

/-- The progress snapshot `self.progress_data` (runner.py lines 351-409):
four status partitions, aggregate counts, total and timestamps. -/
structure ProgressData where
  session_start : Option Nat
  last_updated : Option Nat
  total_researchers : Nat
  pending : List String
  success : List String
  failed_retrying : List String
  failed_exhausted : List String
  counts : Counts
deriving Repr, DecidableEq

/-- The runner state relevant to checkpointing: the in-memory snapshot and
the contents of `scraping_progress.json` (none until first written). -/
structure RunnerProgress where
  data : ProgressData
  file : Option ProgressData
deriving Repr, DecidableEq

/-- Model of `CSVResearcherRunner.initialize_progress_tracking` (runner.py lines
351-371): every researcher pending, counts reset, timestamps set, and the
snapshot written to the progress file. -/
def initialize_progress_tracking (researchers : List String) (now : Nat) : RunnerProgress :=
  let pd : ProgressData :=
    { session_start := some now,
      last_updated := some now,
      total_researchers := researchers.length,
      pending := researchers,
      success := [],
      failed_retrying := [],
      failed_exhausted := [],
      counts := ⟨researchers.length, 0, 0, 0⟩ }
  { data := pd, file := some pd }

/-- The removal pass of `update_researcher_status` (runner.py lines
381-388): `list.remove` drops the first occurrence of the name from every
status list that contains it, which is `List.erase` on each list. -/
def removeFromStatusLists (pd : ProgressData) (name : String) : ProgressData :=
  { pd with
    pending := pd.pending.erase name,
    success := pd.success.erase name,
    failed_retrying := pd.failed_retrying.erase name,
    failed_exhausted := pd.failed_exhausted.erase name }

/-- The insertion chain of `update_researcher_status` (runner.py lines
390-399): append the name to the list selected by the new status; an
unrecognized status appends to no list. -/
def insertByStatus (pd : ProgressData) (name status : String) : ProgressData :=
  if status = "success" then { pd with success := pd.success ++ [name] }
  else if status = "failed_retrying" then
    { pd with failed_retrying := pd.failed_retrying ++ [name] }
  else if status = "failed_exhausted" then
    { pd with failed_exhausted := pd.failed_exhausted ++ [name] }
  else if status = "pending" then { pd with pending := pd.pending ++ [name] }
  else pd

/-- The count recomputation of `update_researcher_status` (runner.py lines
401-406): every aggregate count is recomputed as the length of its list. -/
def recomputeCounts (pd : ProgressData) : ProgressData :=
  { pd with
    counts :=
      ⟨pd.pending.length, pd.success.length,
        pd.failed_retrying.length, pd.failed_exhausted.length⟩ }

/-- Model of `CSVResearcherRunner.update_researcher_status` (runner.py lines
373-409): under the progress lock, remove the name from every partition,
insert it into the partition of the new status, recompute the counts,
refresh `last_updated`, and write the full snapshot to the progress file
before returning. -/
def update_researcher_status (rp : RunnerProgress) (name status : String) (now : Nat) :
    RunnerProgress :=
  let pd1 := insertByStatus (removeFromStatusLists rp.data name) name status
  let pd2 := recomputeCounts pd1
  let pd3 := { pd2 with last_updated := some now }
  { data := pd3, file := some pd3 }

/-- Concatenation of the four status partitions, in the order the source
iterates over them (runner.py lines 381-386). -/
def statusLists (pd : ProgressData) : List String :=
  pd.pending ++ pd.success ++ pd.failed_retrying ++ pd.failed_exhausted

/-- The four status strings `update_researcher_status` recognizes
(runner.py lines 390-399). -/
def validStatus (s : String) : Prop :=
  s = "pending" ∨ s = "success" ∨ s = "failed_retrying" ∨ s = "failed_exhausted"

instance (s : String) : Decidable (validStatus s) := by
  unfold validStatus; infer_instance

/-- The partition list selected by a status string. -/
def listOfStatus (pd : ProgressData) (s : String) : List String :=
  if s = "pending" then pd.pending
  else if s = "success" then pd.success
  else if s = "failed_retrying" then pd.failed_retrying
  else pd.failed_exhausted

/-- Progress states reachable in a fresh run: the initialized snapshot,
followed by any sequence of `update_researcher_status` calls with one of
the four recognized statuses on a seeded researcher — the only calls the
worker loop performs (runner.py lines 608, 663, 710). -/
inductive ReachableProgress (researchers : List String) : ProgressData → Prop where
  | start (now : Nat) :
      ReachableProgress researchers (initialize_progress_tracking researchers now).data
  | step (pd : ProgressData) (hp : ReachableProgress researchers pd)
      (name : String) (hn : name ∈ researchers)
      (status : String) (hs : validStatus status) (now : Nat) (file : Option ProgressData) :
      ReachableProgress researchers (update_researcher_status ⟨pd, file⟩ name status now).data

/-! ## Resume filtering (`runner.py`, `process_researchers_from_csv`) -/

/-- The continue-mode filter of `process_researchers_from_csv` (runner.py
lines 810-819): drop exactly the researchers recorded in the `success`
list of the loaded progress snapshot; everything else — including names
persisted as pending, failed_retrying or failed_exhausted — is kept and
later seeded into the work queue (runner.py lines 746-748). -/
def resume_researchers (researchers_data : List (String × String))
    (progress : ProgressData) : List (String × String) :=
  researchers_data.filter (fun p => !(progress.success.contains p.1))

/-! ## Tor-IP extraction (`ip_tracker.py`, `extract_tor_ip_from_output`) -/

/-- The whitespace set of Python `str.strip()` / `str.split()`. -/
def pyIsSpace (c : Char) : Bool :=
  c = ' ' || c = '\t' || c = '\n' || c = '\r' || c = '\x0b' || c = '\x0c'

/-- Drop leading Python-whitespace characters. -/
def dropLeadingWs : List Char → List Char
  | [] => []
  | c :: cs => if pyIsSpace c then dropLeadingWs cs else c :: cs

/-- Python `str.strip()`: drop leading and trailing whitespace. -/
def pyStrip (l : List Char) : List Char :=
  (dropLeadingWs (dropLeadingWs l).reverse).reverse

/-- Python `str.split("\n")`: cut at every newline, keeping empty pieces. -/
def splitOnNewline : List Char → List (List Char)
  | [] => [[]]
  | c :: cs =>
    if c = '\n' then [] :: splitOnNewline cs
    else
      match splitOnNewline cs with
      | [] => [[c]]
      | l :: ls => (c :: l) :: ls

/-- Text before and after the FIRST occurrence of `sep` in `l`, or none
when `sep` does not occur — the basis of Python `sep in line` and
`line.split(sep)`. -/
def splitFirstOn (sep : List Char) : List Char → Option (List Char × List Char)
  | [] => none
  | c :: cs =>
    if sep.isPrefixOf (c :: cs) then some ([], List.drop sep.length (c :: cs))
    else
      match splitFirstOn sep cs with
      | none => none
      | some (pre, post) => some (c :: pre, post)

/-- First whitespace-delimited token, i.e. Python `s.split()[0]` for a
stripped, non-empty `s` (ip_tracker.py line 48). -/
def firstTok : List Char → List Char
  | [] => []
  | c :: cs => if pyIsSpace c then [] else c :: firstTok cs

/-- The characters of the separator string `"Tor IP:"`. -/
def torSep : List Char := ['T', 'o', 'r', ' ', 'I', 'P', ':']

/-- The line scan of `extract_tor_ip_from_output` (ip_tracker.py lines
45-49): on the first line containing `"Tor IP:"`, take
`line.split("Tor IP:")[1]` — the text between the first and (if any)
second occurrence — strip it, and return its first whitespace token, or
nothing when the stripped remainder is empty; the scan stops at that line
either way. -/
def findTorIpLine : List (List Char) → Option (List Char)
  | [] => none
  | line :: rest =>
    match splitFirstOn torSep line with
    | none => findTorIpLine rest
    | some (_, post) =>
      let seg :=
        match splitFirstOn torSep post with
        | none => post
        | some (pre, _) => pre
      let ip_part := pyStrip seg
      if ip_part = [] then none else some (firstTok ip_part)

/-- Model of `IPTracker.extract_tor_ip_from_output` (ip_tracker.py lines 39-51):
falsy input gives nothing; otherwise strip the output, split it into
lines and scan them for the `"Tor IP:"` line. -/
def extract_tor_ip_from_output (stdout_output : Option String) : Option String :=
  match stdout_output with
  | none => none
  | some out =>
    if out = "" then none
    else (findTorIpLine (splitOnNewline (pyStrip out.data))).map fun l => String.mk l

/-! ## Admission gate and single-attempt execution
(`runner.py`, `_run_single_researcher_scrape_by_scholar_id`) -/

/-- The fields of a successful scrape result used by the runner
(scraper.py lines 527-538): `tor_ip` is a fresh `get_current_ip()` call at
result-construction time. -/
structure ScrapeSuccessData where
  author_name : String
  affiliation : String
  citations : String
  papers_count : Nat
  tor_ip : String
  folder_path : String
deriving Repr, DecidableEq

/-- Outcome of one call into the execution collaborator
`scrape_researcher_by_scholar_id`: a success dict, a failure dict with an
error message (a `None` result is the failure `"Failed to get result"`,
runner.py lines 532-537), or an uncaught exception with its message. -/
inductive ScrapeOutcome where
  | ok (d : ScrapeSuccessData)
  | failed (error : String)
  | raised (msg : String)
deriving Repr, DecidableEq

/-- One iteration of the unbounded gate loop (runner.py lines 456-507),
as seen by that loop: the string `get_current_ip()` returned after the
identity rotation ("Errored IP" on probe failure), and what the scrape
would produce were it executed in this iteration. -/
structure GateStep where
  current_ip : String
  outcome : ScrapeOutcome
deriving Repr, DecidableEq

/-- The result dict built by
`_run_single_researcher_scrape_by_scholar_id` (runner.py lines 513-562),
restricted to the fields the worker reads. -/
structure AttemptResult where
  success : Bool
  stdout : String
  stderr : String
  error : String
  ip_retry_attempt : Nat
deriving Repr, DecidableEq

/-- The stdout string assembled on success (runner.py lines 516-523). -/
def buildStdout (d : ScrapeSuccessData) : String :=
  "Author: " ++ d.author_name ++ "\n" ++
  "Affiliation: " ++ d.affiliation ++ "\n" ++
  "Citations: " ++ d.citations ++ "\n" ++
  "Papers: " ++ toString d.papers_count ++ "\n" ++
  "Tor IP: " ++ d.tor_ip ++ "\n" ++
  "Saved to: " ++ d.folder_path

/-- Conversion of a scrape outcome into the attempt-result dict
(runner.py lines 513-562): success builds the stdout block; a reported
failure and an uncaught exception both yield `success = False` with the
message as `error` and `stderr`. -/
def attempt_result_of (st : GateStep) (k : Nat) : AttemptResult :=
  match st.outcome with
  | .ok d =>
    { success := true, stdout := buildStdout d, stderr := "", error := "",
      ip_retry_attempt := k }
  | .failed e =>
    { success := false, stdout := "", stderr := e, error := e, ip_retry_attempt := k }
  | .raised m =>
    { success := false, stdout := "", stderr := m, error := m, ip_retry_attempt := k }

/-- The gate loop of `_run_single_researcher_scrape_by_scholar_id`
(runner.py lines 455-507) with `usage` the ledger counts read through
`get_ip_usage_count` and `k` the running `ip_retry_attempt`.  Per
iteration: after rotating, if the probed IP is truthy, not "Errored IP",
and its usage count has reached `limit`, the task is NOT executed —
`ip_retry_attempt` is incremented, the loop sleeps
`min(2 ** ip_retry_attempt, 60)` seconds and retries with a fresh
identity; otherwise the scrape runs and the loop returns.  The function
returns the executed step with its `ip_retry_attempt` (none when the
oracle of iterations runs out, i.e. the loop is still spinning) together
with the list of backoff sleeps performed. -/
def gate_loop (usage : String → Nat) (limit : Nat) (k : Nat) :
    List GateStep → Option (GateStep × Nat) × List Nat
  | [] => (none, [])
  | st :: rest =>
    if (st.current_ip ≠ "" ∧ st.current_ip ≠ "Errored IP") ∧ limit ≤ usage st.current_ip then
      let r := gate_loop usage limit (k + 1) rest
      (r.1, min (2 ^ (k + 1)) 60 :: r.2)
    else (some (st, k), [])

/-- The backoff sleeps of one `_run_single_researcher_scrape_by_scholar_id`
call, which starts at `ip_retry_attempt = 0` (runner.py line 455). -/
def gate_waits (usage : String → Nat) (limit : Nat) (steps : List GateStep) : List Nat :=
  (gate_loop usage limit 0 steps).2

/-- Model of `_run_single_researcher_scrape_by_scholar_id` (runner.py lines
437-562): run the gate loop from `ip_retry_attempt = 0` and convert the
executed iteration into the result dict. -/
def run_single_researcher_scrape (usage : String → Nat) (limit : Nat)
    (steps : List GateStep) : Option AttemptResult :=
  (gate_loop usage limit 0 steps).1.map fun p => attempt_result_of p.1 p.2

/-! ## Worker retry loop (`runner.py`, `_queue_worker_thread`) -/

/-- Terminal state of one dequeued task together with the number of
attempts actually executed for it. -/
inductive TaskFinal where
  | success (attempts_made : Nat)
  | exhausted (attempts_made : Nat)
deriving Repr, DecidableEq

/-- The per-task retry loop of `_queue_worker_thread` (runner.py lines
597-712).  `res n` is the attempt-result dict of the n-th attempt
(1-based), `budget` is `max_retries - attempts_done`: the loop increments
`attempt_num`; when it exceeds `max_retries` the task is marked
failed_exhausted and abandoned; otherwise the attempt executes, a success
marks the task successful and leaves the loop, and a failure marks it
failed_retrying and iterates.  Returns the terminal state and the ordered
list of statuses passed to `update_researcher_status`. -/
def worker_task_loop (res : Nat → AttemptResult) :
    Nat → Nat → TaskFinal × List String
  | 0, done => (.exhausted done, ["failed_exhausted"])
  | b + 1, done =>
    if (res (done + 1)).success then (.success (done + 1), ["success"])
    else
      let next := worker_task_loop res b (done + 1)
      (next.1, "failed_retrying" :: next.2)

/-- Processing of one freshly dequeued task (not yet in
`successful_researchers`): the retry loop starting at `attempt_num = 0`
with the full `max_retries` budget. -/
def process_task (res : Nat → AttemptResult) (max_retries : Nat) : TaskFinal × List String :=
  worker_task_loop res max_retries 0

/-- One worker draining a queue seeding (runner.py lines 577-721): each
dequeued researcher is carried through the retry loop to a terminal
state — the enclosing try/except (lines 714-721) turns any unexpected
error into `continue`, so the worker always proceeds to the next task. -/
def worker_run (outcomes : String → Nat → AttemptResult) (max_retries : Nat) :
    List (String × String) → List (String × TaskFinal)
  | [] => []
  | (name, _sid) :: rest =>
    (name, (process_task (outcomes name) max_retries).1) ::
      worker_run outcomes max_retries rest

/-- The success bookkeeping of `_queue_worker_thread` (runner.py lines
659-671): on a successful attempt, extract the Tor IP from the result
stdout and, when one is found, record the success in the usage ledger. -/
def record_success (tracker : IPTrackerState) (researcher_name : String)
    (r : AttemptResult) (thread_id : Option Nat) (now : Nat) : IPTrackerState :=
  match extract_tor_ip_from_output (some r.stdout) with
  | some ip => log_successful_scrape tracker researcher_name ip thread_id now
  | none => tracker

/-! ## CLI exit paths (`cli.py` `main`, `runner.py` `signal_handler`) -/

/-- Exit code of `CSVResearcherRunner.signal_handler` (runner.py lines
268-277): on SIGINT/SIGTERM it cleans up Tor and calls `sys.exit(0)`,
for every signal number. -/
def signal_handler_exit_code (_signum : Nat) : Nat := 0

/-- How a CLI invocation of `main` (cli.py lines 84-136) ends, once the
argument and file checks have passed. After `CSVResearcherRunner.__init__`
installs its handlers (runner.py lines 125-126), SIGINT/SIGTERM are routed
to `signal_handler`; a `KeyboardInterrupt` can only reach the
try/except in `main` before that point. -/
inductive MainEnd where
  | run_completed
  | keyboard_interrupt_before_handlers
  | signal_during_run (signum : Nat)
  | startup_error
deriving DecidableEq

/-- Process exit status for each way `main` ends: normal return exits 0,
the two except-branches call `sys.exit(1)` (cli.py lines 124-133), and a
signal during the run exits through `signal_handler` (runner.py line 277). -/
def main_exit_code : MainEnd → Nat
  | .run_completed => 0
  | .keyboard_interrupt_before_handlers => 1
  | .signal_during_run s => signal_handler_exit_code s
  | .startup_error => 1

/-! ## Concrete fixtures used by counterexamples and witnesses -/

/-- A persisted progress snapshot of a prior run in which researcher "A"
succeeded and researcher "D" ended failed_exhausted. -/
def priorProgressD : ProgressData :=
  { session_start := some 0, last_updated := some 9, total_researchers := 2,
    pending := [], success := ["A"], failed_retrying := [], failed_exhausted := ["D"],
    counts := ⟨0, 1, 0, 1⟩ }

/-- A ledger state in which identity "1.2.3.4" has exactly 10 recorded uses. -/
def trackerAtLimit : IPTrackerState :=
  { ip_usage := fun ip => if ip = "1.2.3.4" then 10 else 0,
    ip_details := fun _ => none }

/-- A gate-loop oracle: the IP probe after rotation fails ("Errored IP"),
and the scrape then succeeds through exit identity "1.2.3.4". -/
def erroredProbeSteps : List GateStep :=
  [⟨"Errored IP", .ok ⟨"A", "Aff", "100", 5, "1.2.3.4", "/out"⟩⟩]

/-- A gate-loop oracle in which every probed identity is saturated. -/
def saturatedSteps : List GateStep :=
  [⟨"9.9.9.9", .failed "denied"⟩, ⟨"9.9.9.9", .failed "denied"⟩]

/-- An attempt oracle whose every attempt reports failure. -/
def allFailRes : Nat → AttemptResult :=
  fun _ => { success := false, stdout := "", stderr := "e", error := "e", ip_retry_attempt := 0 }

/-- An attempt oracle whose every attempt is the converted form of an
uncaught collaborator exception "boom". -/
def allRaisedRes : Nat → AttemptResult :=
  fun n => attempt_result_of ⟨"2.2.2.2", .raised "boom"⟩ n

/-- An attempt oracle whose every attempt is a reported failure "boom". -/
def allFailedRes : Nat → AttemptResult :=
  fun n => attempt_result_of ⟨"2.2.2.2", .failed "boom"⟩ n

/-! ## C1 — resume filtering -/

/-- Claim C1 counterexample: in the loaded snapshot researcher "D" is
persisted as failed_exhausted, yet the continue-mode filter of
`process_researchers_from_csv` (runner.py lines 815-819) keeps "D", so it
is re-seeded into the work queue and re-processed; only the prior
successes are excluded. -/
theorem C1_counterexample :
    priorProgressD.failed_exhausted = ["D"] ∧
    resume_researchers [("A", "idA"), ("D", "idD")] priorProgressD = [("D", "idD")] := by
  exact ⟨rfl, by decide⟩

/-- Claim C1 (amended): on a resumed run, a researcher is excluded from
re-processing exactly when its name is in the persisted `success` list;
researchers persisted as pending, failed_retrying or failed_exhausted are
all re-queued and re-processed. -/
theorem C1_resume_reprocesses_exhausted (researchers_data : List (String × String))
    (progress : ProgressData) (name sid : String) :
    (name, sid) ∈ resume_researchers researchers_data progress ↔
      (name, sid) ∈ researchers_data ∧ name ∉ progress.success := by
  simp [resume_researchers, List.mem_filter]

/-- Witness for C1: the failed_exhausted researcher "D" is among the
re-processed researchers of the resumed run. -/
theorem C1_resume_reprocesses_exhausted_witness :
    ("D", "idD") ∈ resume_researchers [("A", "idA"), ("D", "idD")] priorProgressD :=
  (C1_resume_reprocesses_exhausted [("A", "idA"), ("D", "idD")] priorProgressD
    "D" "idD").mpr ⟨by decide, by decide⟩

/-! ## C2 — process exit status -/

/-- Claim C2 counterexample: a run aborted by an interrupt signal
(here SIGINT = 2) exits through `CSVResearcherRunner.signal_handler`,
which calls `sys.exit(0)` (runner.py line 277) — the exit status is 0,
not non-zero as claimed. -/
theorem C2_counterexample : main_exit_code (.signal_during_run 2) = 0 := rfl

/-- Claim C2 (amended): a run aborted by SIGINT/SIGTERM after the runner
has installed its signal handlers exits with status zero (the handler
calls `sys.exit(0)`); a run that completes also exits zero; only a
KeyboardInterrupt delivered before the handlers are installed, or a
startup error, makes `main` exit non-zero (cli.py lines 124-133). -/
theorem C2_exit_status :
    (∀ s, main_exit_code (.signal_during_run s) = 0) ∧
    main_exit_code .run_completed = 0 ∧
    main_exit_code .keyboard_interrupt_before_handlers = 1 ∧
    main_exit_code .startup_error = 1 :=
  ⟨fun _ => rfl, rfl, rfl, rfl⟩

/-! ## C8 — ledger monotonicity -/

/-- One ledger operation never lowers any usage counter. -/
theorem applyLedgerOp_usage_le (s : IPTrackerState) (op : LedgerOp) (ip : String) :
    s.ip_usage ip ≤ (applyLedgerOp s op).ip_usage ip := by
  cases op with
  | record r ip0 t now =>
    simp only [applyLedgerOp, log_successful_scrape]
    split
    · exact le_refl _
    · simp only []
      split
      · next h => subst h; exact Nat.le_succ _
      · exact le_refl _
  | stats => exact le_refl _
  | persist => exact le_refl _

/-- Claim C8: across any sequence of ledger operations (record success,
stats snapshot, persist) the usage count of every identity is
non-decreasing; each recorded success against a non-empty identity
increments the count of that identity by exactly one; and the counts survive a
persist/reload round trip unchanged, so they are also non-decreasing
across a process restart. -/
theorem C8_usage_counts_monotone :
    (∀ (s : IPTrackerState) (ops : List LedgerOp) (ip : String),
        s.ip_usage ip ≤ (applyLedgerOps s ops).ip_usage ip) ∧
    (∀ (s : IPTrackerState) (r ip : String) (t : Option Nat) (now : Nat), ip ≠ "" →
        (log_successful_scrape s r ip t now).ip_usage ip = s.ip_usage ip + 1) ∧
    (∀ (s : IPTrackerState) (ip : String),
        (load_existing_data (some (save_to_file s))).ip_usage ip = s.ip_usage ip) := by
  refine ⟨?_, ?_, ?_⟩
  · intro s ops
    induction ops generalizing s with
    | nil => intro ip; exact le_refl _
    | cons op ops ih =>
      intro ip
      exact le_trans (applyLedgerOp_usage_le s op ip) (ih (applyLedgerOp s op) ip)
  · intro s r ip t now hip
    simp [log_successful_scrape, hip]
  · intro s ip
    rfl

/-- Witness for C8: recording a success for "1.2.3.4" on a fresh ledger
moves its count from 0 to exactly 1. -/
theorem C8_usage_counts_monotone_witness :
    (log_successful_scrape (load_existing_data none) "R" "1.2.3.4" none 0).ip_usage "1.2.3.4"
      = (load_existing_data none).ip_usage "1.2.3.4" + 1 :=
  C8_usage_counts_monotone.2.1 (load_existing_data none) "R" "1.2.3.4" none 0 (by decide)

/-! ## C4 — retry bound -/

/-- The retry loop reaches failed_exhausted exactly when the budget runs
out, after `done + budget` executed attempts. -/
theorem worker_task_loop_exhausted (res : Nat → AttemptResult) :
    ∀ (b done n : Nat), (worker_task_loop res b done).1 = .exhausted n → n = done + b := by
  intro b
  induction b with
  | zero => intro done n h; simp [worker_task_loop] at h; omega
  | succ b ih =>
    intro done n h
    simp only [worker_task_loop] at h
    split at h
    · simp at h
    · have := ih (done + 1) n (by simpa using h)
      omega

/-- The retry loop succeeds only on an attempt inside the budget. -/
theorem worker_task_loop_success (res : Nat → AttemptResult) :
    ∀ (b done n : Nat), (worker_task_loop res b done).1 = .success n →
      done < n ∧ n ≤ done + b := by
  intro b
  induction b with
  | zero => intro done n h; simp [worker_task_loop] at h
  | succ b ih =>
    intro done n h
    simp only [worker_task_loop] at h
    split at h
    · simp at h; omega
    · have := ih (done + 1) n (by simpa using h)
      omega

/-- Claim C4: a task that ends failed_exhausted executed exactly
`max_retries` attempts (the loop increments `attempt_num` and abandons
the task as soon as it would exceed `max_retries`, runner.py lines
597-609), and no task — successful or exhausted — is ever attempted more
than `max_retries` times. -/
theorem C4_retry_bound (res : Nat → AttemptResult) (max_retries : Nat) :
    (∀ n, (process_task res max_retries).1 = .exhausted n → n = max_retries) ∧
    (∀ n, (process_task res max_retries).1 = .success n → n ≤ max_retries) := by
  constructor
  · intro n h
    have := worker_task_loop_exhausted res max_retries 0 n h
    omega
  · intro n h
    have := worker_task_loop_success res max_retries 0 n h
    omega

/-- Witness for C4: with `max_retries = 3` and every attempt failing, the
task is exhausted after exactly 3 attempts (the spec scenario for task
"D"). -/
theorem C4_retry_bound_witness :
    (process_task allFailRes 3).1 = .exhausted 3 ∧ (3 : Nat) = 3 :=
  ⟨by decide, (C4_retry_bound allFailRes 3).1 3 (by decide)⟩

/-! ## C7 — exception handling -/

/-- The retry loop inspects only the success flag of each attempt. -/
theorem worker_task_loop_congr (res1 res2 : Nat → AttemptResult)
    (h : ∀ n, (res1 n).success = (res2 n).success) :
    ∀ (b done : Nat), worker_task_loop res1 b done = worker_task_loop res2 b done := by
  intro b
  induction b with
  | zero => intro done; rfl
  | succ b ih =>
    intro done
    simp only [worker_task_loop, h (done + 1), ih (done + 1)]

/-- Claim C7: an uncaught exception from the execution collaborator is
converted by `_run_single_researcher_scrape_by_scholar_id` (runner.py
lines 548-562) into a failure result carrying the error message, the
worker treats it exactly like a reported failure (the retry loop reads
only the success flag), and such a task still reaches a terminal state
while the worker goes on to process every remaining queued task
(runner.py lines 714-721). -/
theorem C7_exception_is_failure :
    (∀ (st : GateStep) (k : Nat) (m : String), st.outcome = .raised m →
        attempt_result_of st k =
          { success := false, stdout := "", stderr := m, error := m, ip_retry_attempt := k }) ∧
    (∀ (res1 res2 : Nat → AttemptResult) (mr : Nat),
        (∀ n, (res1 n).success = (res2 n).success) →
        process_task res1 mr = process_task res2 mr) ∧
    (∀ (outcomes : String → Nat → AttemptResult) (mr : Nat) (q : List (String × String)),
        (worker_run outcomes mr q).length = q.length) := by
  refine ⟨?_, ?_, ?_⟩
  · intro st k m h
    simp [attempt_result_of, h]
  · intro res1 res2 mr h
    exact worker_task_loop_congr res1 res2 h mr 0
  · intro outcomes mr q
    induction q with
    | nil => rfl
    | cons p rest ih => cases p; simp [worker_run, ih]

/-- Witness for C7: a task whose every attempt raises "boom" follows the
same retry path as one whose every attempt reports failure "boom". -/
theorem C7_exception_is_failure_witness :
    process_task allRaisedRes 2 = process_task allFailedRes 2 :=
  C7_exception_is_failure.2.1 allRaisedRes allFailedRes 2 (fun _ => rfl)

/-! ## C9 — capped exponential backoff -/

/-- Every backoff sleep of the gate loop started at `ip_retry_attempt = k`
is `min(2 ^ (k + i + 1), 60)` for its position `i`. -/
theorem gate_loop_waits (usage : String → Nat) (limit : Nat) :
    ∀ (steps : List GateStep) (k i : Nat),
      i < ((gate_loop usage limit k steps).2).length →
      ((gate_loop usage limit k steps).2).get? i = some (min (2 ^ (k + i + 1)) 60) := by
  intro steps
  induction steps with
  | nil => intro k i h; simp [gate_loop] at h
  | cons st rest ih =>
    intro k i h
    by_cases hc :
        (st.current_ip ≠ "" ∧ st.current_ip ≠ "Errored IP") ∧ limit ≤ usage st.current_ip
    · have heq : gate_loop usage limit k (st :: rest) =
          ((gate_loop usage limit (k + 1) rest).1,
            min (2 ^ (k + 1)) 60 :: (gate_loop usage limit (k + 1) rest).2) := by
        simp [gate_loop, hc]
      rw [heq] at h ⊢
      cases i with
      | zero => simp
      | succ j =>
        have hj : j < ((gate_loop usage limit (k + 1) rest).2).length := by
          simpa using h
        have hrec := ih (k + 1) j hj
        have harith : k + 1 + j + 1 = k + (j + 1) + 1 := by omega
        rw [harith] at hrec
        simpa using hrec
    · have heq : gate_loop usage limit k (st :: rest) = (some (st, k), []) := by
        simp [gate_loop, hc]
      rw [heq] at h
      simp at h

/-- Claim C9: the i-th backoff sleep (0-based) of one
`_run_single_researcher_scrape_by_scholar_id` call — the wait before the
(i+1)-th consecutive forced rotation for the task — is exactly
`min(2 ^ (i + 1), 60)` seconds (runner.py lines 504-506); hence every
wait is at most the 60-second ceiling, and while the ceiling is not
reached each wait is double the previous one. -/
theorem C9_backoff_capped_doubling (usage : String → Nat) (limit : Nat)
    (steps : List GateStep) :
    (∀ i (h : i < (gate_waits usage limit steps).length),
        (gate_waits usage limit steps).get ⟨i, h⟩ = min (2 ^ (i + 1)) 60) ∧
    (∀ i (h : i < (gate_waits usage limit steps).length),
        (gate_waits usage limit steps).get ⟨i, h⟩ ≤ 60) ∧
    (∀ i (h : i + 1 < (gate_waits usage limit steps).length), 2 ^ (i + 2) ≤ 60 →
        (gate_waits usage limit steps).get ⟨i + 1, h⟩ =
          2 * (gate_waits usage limit steps).get ⟨i, by omega⟩) := by
  have base : ∀ i (h : i < (gate_waits usage limit steps).length),
      (gate_waits usage limit steps).get ⟨i, h⟩ = min (2 ^ (i + 1)) 60 := by
    intro i h
    have h1 : (gate_waits usage limit steps).get? i =
        some ((gate_waits usage limit steps).get ⟨i, h⟩) := List.get?_eq_get h
    have h0 : (gate_waits usage limit steps).get? i = some (min (2 ^ (0 + i + 1)) 60) :=
      gate_loop_waits usage limit steps 0 i h
    have h2 := Option.some.inj (h1.symm.trans h0)
    simpa using h2
  refine ⟨base, ?_, ?_⟩
  · intro i h
    rw [base i h]
    exact min_le_right _ _
  · intro i h hcap
    rw [base (i + 1) h, base i (by omega)]
    have h1 : 2 ^ (i + 1) ≤ 60 := le_trans (Nat.pow_le_pow_right (by omega) (by omega)) hcap
    rw [min_eq_left hcap, min_eq_left h1, pow_succ]
    omega

/-- Witness for C9: with every probed identity saturated, the first two
forced rotations wait `min(2^1, 60) = 2` and `min(2^2, 60) = 4` seconds. -/
theorem C9_backoff_capped_doubling_witness :
    (gate_waits (fun _ => 10) 10 saturatedSteps).get ⟨0, by decide⟩ = min (2 ^ (0 + 1)) 60 ∧
    (gate_waits (fun _ => 10) 10 saturatedSteps).get ⟨1, by decide⟩ = min (2 ^ (1 + 1)) 60 :=
  ⟨(C9_backoff_capped_doubling (fun _ => 10) 10 saturatedSteps).1 0 (by decide),
   (C9_backoff_capped_doubling (fun _ => 10) 10 saturatedSteps).1 1 (by decide)⟩

/-! ## C3 — admission ceiling -/

/-- Claim C3 counterexample: ledger identity "1.2.3.4" stands at the limit
(10 of 10) when the attempt starts, the IP probe of the gate returns
"Errored IP" so the over-limit check is skipped (runner.py line 491), the
scrape executes anyway and succeeds through exit IP "1.2.3.4", and the
success path of the worker records that attempt in the ledger — raising
the count of the over-limit identity to 11.  A successful attempt IS recorded
against an identity whose count at attempt start was ≥ the limit. -/
theorem C3_counterexample :
    10 ≤ get_ip_usage_count trackerAtLimit (some "1.2.3.4") ∧
    (run_single_researcher_scrape trackerAtLimit.ip_usage 10 erroredProbeSteps).map
        (fun r => r.success) = some true ∧
    (run_single_researcher_scrape trackerAtLimit.ip_usage 10 erroredProbeSteps).map
        (fun r => extract_tor_ip_from_output (some r.stdout)) = some (some "1.2.3.4") ∧
    (run_single_researcher_scrape trackerAtLimit.ip_usage 10 erroredProbeSteps).map
        (fun r => (record_success trackerAtLimit "R" r none 7).ip_usage "1.2.3.4")
      = some 11 := by
  exact ⟨by decide, by decide, by decide, by decide⟩

/-- Claim C3 (amended): whenever the gate probes a usable identity
(non-empty, not "Errored IP") whose usage count has reached the limit,
the task is not executed in that iteration — the loop backs off and
forces a fresh identity instead; consequently every admitted execution
whose probed identity was usable started with a usage count strictly
below the limit.  (When the probe fails, the gate is bypassed and the
ceiling can be violated — see the counterexample.) -/
theorem C3_admission_gate (usage : String → Nat) (limit : Nat) :
    (∀ (st : GateStep) (rest : List GateStep) (k : Nat),
        st.current_ip ≠ "" → st.current_ip ≠ "Errored IP" →
        limit ≤ usage st.current_ip →
        gate_loop usage limit k (st :: rest) =
          ((gate_loop usage limit (k + 1) rest).1,
            min (2 ^ (k + 1)) 60 :: (gate_loop usage limit (k + 1) rest).2)) ∧
    (∀ (steps : List GateStep) (k : Nat) (st : GateStep) (j : Nat),
        (gate_loop usage limit k steps).1 = some (st, j) →
        st.current_ip ≠ "" → st.current_ip ≠ "Errored IP" →
        usage st.current_ip < limit) := by
  constructor
  · intro st rest k h1 h2 h3
    simp [gate_loop, h1, h2, h3]
  · intro steps
    induction steps with
    | nil => intro k st j h; simp [gate_loop] at h
    | cons hd rest ih =>
      intro k st j h h1 h2
      by_cases hc :
          (hd.current_ip ≠ "" ∧ hd.current_ip ≠ "Errored IP") ∧ limit ≤ usage hd.current_ip
      · simp only [gate_loop, if_pos hc] at h
        exact ih (k + 1) st j h h1 h2
      · simp only [gate_loop, if_neg hc] at h
        have hst : hd = st := by
          have := h
          simp at this
          exact this.1
        subst hst
        rcases Decidable.not_and_iff_or_not.mp hc with hvalid | hlt
        · exact absurd ⟨h1, h2⟩ hvalid
        · omega

/-- Witness for C3: a saturated usable identity at the head of the loop
is skipped with a 2-second backoff, and an admitted usable identity in a
fresh ledger has count 0, below limit 10. -/
theorem C3_admission_gate_witness :
    gate_loop (fun _ => 10) 10 0 [⟨"5.5.5.5", ScrapeOutcome.failed "x"⟩] =
      ((gate_loop (fun _ => 10) 10 1 []).1,
        min (2 ^ 1) 60 :: (gate_loop (fun _ => 10) 10 1 []).2) ∧
    (fun _ => (0 : Nat)) "5.5.5.5" < 10 :=
  ⟨(C3_admission_gate (fun _ => 10) 10).1 ⟨"5.5.5.5", ScrapeOutcome.failed "x"⟩ [] 0
      (by decide) (by decide) (by decide),
   (C3_admission_gate (fun _ => 0) 10).2 [⟨"5.5.5.5", ScrapeOutcome.failed "x"⟩] 0
      ⟨"5.5.5.5", ScrapeOutcome.failed "x"⟩ 0 (by decide) (by decide) (by decide)⟩

/-! ## C5, C6, C10 — checkpoint-store invariants -/

/-- The status lists of an updated snapshot are those produced by the
remove/insert passes; the count recomputation and timestamp refresh do
not touch them. -/
theorem statusLists_update_eq (rp : RunnerProgress) (name status : String) (now : Nat) :
    statusLists (update_researcher_status rp name status now).data =
      statusLists (insertByStatus (removeFromStatusLists rp.data name) name status) := rfl

/-- The stored total task count is untouched by a status transition. -/
theorem update_total_eq (rp : RunnerProgress) (name status : String) (now : Nat) :
    (update_researcher_status rp name status now).data.total_researchers =
      rp.data.total_researchers := by
  simp only [update_researcher_status, recomputeCounts]
  unfold insertByStatus
  split_ifs <;> rfl

/-- A transition with a recognized status preserves every multiplicity in
the combined partitions, provided the name occurred exactly once: the
erase pass removes that single occurrence and the insert pass re-adds
one. -/
theorem update_count_eq (rp : RunnerProgress) (name status : String) (now : Nat)
    (hs : validStatus status) (h1 : (statusLists rp.data).count name = 1) (a : String) :
    (statusLists (update_researcher_status rp name status now).data).count a =
      (statusLists rp.data).count a := by
  rw [statusLists_update_eq]
  simp only [statusLists, List.count_append] at h1 ⊢
  by_cases ha : a = name
  · subst ha
    rcases hs with h | h | h | h <;> subst h <;>
      simp [removeFromStatusLists, insertByStatus, List.count_append,
        List.count_erase_self] <;> omega
  · rcases hs with h | h | h | h <;> subst h <;>
      simp [removeFromStatusLists, insertByStatus, List.count_append,
        List.count_erase_of_ne ha, ha]

/-- Along every fresh-run reachable progress state, the four partitions
together are a permutation of the seeded researchers, the stored total is
the number of researchers, and the aggregate counts equal the partition
lengths. -/
theorem reachable_progress_invariant (researchers : List String)
    (hnd : researchers.Nodup) (pd : ProgressData)
    (h : ReachableProgress researchers pd) :
    List.Perm (statusLists pd) researchers ∧
    pd.total_researchers = researchers.length ∧
    pd.counts = ⟨pd.pending.length, pd.success.length, pd.failed_retrying.length,
      pd.failed_exhausted.length⟩ := by
  induction h with
  | start now =>
    have hl : statusLists (initialize_progress_tracking researchers now).data = researchers := by
      simp [initialize_progress_tracking, statusLists]
    refine ⟨?_, rfl, ?_⟩
    · rw [hl]
    · rfl
  | step pd hp name hn status hs now file ih =>
    obtain ⟨hperm, htot, _⟩ := ih
    have h1 : (statusLists pd).count name = 1 := by
      rw [hperm.count_eq name]
      exact List.count_eq_one_of_mem hnd hn
    have hcnt := update_count_eq ⟨pd, file⟩ name status now hs h1
    refine ⟨List.perm_iff_count.mpr (fun a => (hcnt a).trans (hperm.count_eq a)),
      (update_total_eq ⟨pd, file⟩ name status now).trans htot, rfl⟩

/-- Claim C5: after progress tracking is initialized and across every
recognized status transition on a seeded researcher, each researcher name
occurs exactly once in the four partitions combined (so it belongs to
exactly one of pending/success/failed_retrying/failed_exhausted), the
partitions are pairwise disjoint (their concatenation has no duplicate),
and the four aggregate counts sum to the stored total task count. -/
theorem C5_partition_invariant (researchers : List String) (hnd : researchers.Nodup)
    (pd : ProgressData) (h : ReachableProgress researchers pd) :
    (∀ name, name ∈ researchers → (statusLists pd).count name = 1) ∧
    (statusLists pd).Nodup ∧
    pd.counts.pending + pd.counts.success + pd.counts.failed_retrying +
        pd.counts.failed_exhausted = pd.total_researchers := by
  obtain ⟨hperm, htot, hcounts⟩ := reachable_progress_invariant researchers hnd pd h
  refine ⟨?_, ?_, ?_⟩
  · intro name hm
    rw [hperm.count_eq name]
    exact List.count_eq_one_of_mem hnd hm
  · exact hperm.nodup_iff.mpr hnd
  · have hlen : (statusLists pd).length = researchers.length := hperm.length_eq
    have hsum : (statusLists pd).length =
        pd.pending.length + pd.success.length + pd.failed_retrying.length +
          pd.failed_exhausted.length := by
      simp [statusLists]
      omega
    rw [hcounts]
    dsimp only
    omega

/-- A progress state reached by initializing with researchers "A", "B"
and marking "A" successful. -/
def pdAfterSuccessA : ProgressData :=
  (update_researcher_status ⟨(initialize_progress_tracking ["A", "B"] 0).data, none⟩
    "A" "success" 1).data

/-- The fixture state is reachable in a fresh run. -/
theorem pdAfterSuccessA_reachable : ReachableProgress ["A", "B"] pdAfterSuccessA :=
  ReachableProgress.step _ (ReachableProgress.start 0) "A" (by decide)
    "success" (by decide) 1 none

/-- Witness for C5: in the fixture state, "A" sits in exactly one
partition, the partitions are duplicate-free, and the counts sum to the
total of 2. -/
theorem C5_partition_invariant_witness :
    (statusLists pdAfterSuccessA).count "A" = 1 ∧
    (statusLists pdAfterSuccessA).Nodup ∧
    pdAfterSuccessA.counts.pending + pdAfterSuccessA.counts.success +
        pdAfterSuccessA.counts.failed_retrying + pdAfterSuccessA.counts.failed_exhausted =
      pdAfterSuccessA.total_researchers :=
  ⟨(C5_partition_invariant ["A", "B"] (by decide) pdAfterSuccessA
      pdAfterSuccessA_reachable).1 "A" (by decide),
    (C5_partition_invariant ["A", "B"] (by decide) pdAfterSuccessA
      pdAfterSuccessA_reachable).2.1,
    (C5_partition_invariant ["A", "B"] (by decide) pdAfterSuccessA
      pdAfterSuccessA_reachable).2.2⟩

/-- Claim C6: a transition with a recognized status moves the researcher
into the partition of the new status and out of every other partition
(given duplicate-free partitions), recomputes every aggregate count as
the length of its partition list, refreshes the last-updated timestamp,
and writes the full new snapshot to the progress file before returning —
the persisted file equals the in-memory state the call leaves behind. -/
theorem C6_transition_contract (rp : RunnerProgress) (name status : String) (now : Nat)
    (hs : validStatus status) (hnd : (statusLists rp.data).Nodup) :
    name ∈ listOfStatus (update_researcher_status rp name status now).data status ∧
    (∀ s, validStatus s → s ≠ status →
      name ∉ listOfStatus (update_researcher_status rp name status now).data s) ∧
    (update_researcher_status rp name status now).data.counts =
      ⟨(update_researcher_status rp name status now).data.pending.length,
        (update_researcher_status rp name status now).data.success.length,
        (update_researcher_status rp name status now).data.failed_retrying.length,
        (update_researcher_status rp name status now).data.failed_exhausted.length⟩ ∧
    (update_researcher_status rp name status now).data.last_updated = some now ∧
    (update_researcher_status rp name status now).file =
      some (update_researcher_status rp name status now).data := by
  have h12 := hnd.of_append_left
  have he := hnd.of_append_right
  have hpps := h12.of_append_left
  have hf := h12.of_append_right
  have hp := hpps.of_append_left
  have hsc := hpps.of_append_right
  refine ⟨?_, ?_, rfl, rfl, rfl⟩
  · rcases hs with h | h | h | h <;> subst h <;>
      simp [listOfStatus, update_researcher_status, insertByStatus,
        removeFromStatusLists, recomputeCounts]
  · intro s hsv hne
    rcases hs with h | h | h | h <;> subst h <;>
      rcases hsv with h2 | h2 | h2 | h2 <;> subst h2 <;>
        first
        | exact absurd rfl hne
        | (simp [listOfStatus, update_researcher_status, insertByStatus,
            removeFromStatusLists, recomputeCounts]
           first
           | exact hp.not_mem_erase
           | exact hsc.not_mem_erase
           | exact hf.not_mem_erase
           | exact he.not_mem_erase)

/-- Witness for C6: marking "A" successful in the initialized {"A", "B"}
state puts "A" in the success partition, removes it from pending, leaves
counts equal to the partition lengths, stamps the time, and persists the
new snapshot. -/
theorem C6_transition_contract_witness :
    "A" ∈ listOfStatus pdAfterSuccessA "success" ∧
    "A" ∉ listOfStatus pdAfterSuccessA "pending" ∧
    pdAfterSuccessA.counts =
      ⟨pdAfterSuccessA.pending.length, pdAfterSuccessA.success.length,
        pdAfterSuccessA.failed_retrying.length, pdAfterSuccessA.failed_exhausted.length⟩ ∧
    pdAfterSuccessA.last_updated = some 1 ∧
    (update_researcher_status ⟨(initialize_progress_tracking ["A", "B"] 0).data, none⟩
        "A" "success" 1).file = some pdAfterSuccessA :=
  ⟨(C6_transition_contract ⟨(initialize_progress_tracking ["A", "B"] 0).data, none⟩
      "A" "success" 1 (by decide) (by decide)).1,
    (C6_transition_contract ⟨(initialize_progress_tracking ["A", "B"] 0).data, none⟩
      "A" "success" 1 (by decide) (by decide)).2.1 "pending" (by decide) (by decide),
    (C6_transition_contract ⟨(initialize_progress_tracking ["A", "B"] 0).data, none⟩
      "A" "success" 1 (by decide) (by decide)).2.2.1,
    (C6_transition_contract ⟨(initialize_progress_tracking ["A", "B"] 0).data, none⟩
      "A" "success" 1 (by decide) (by decide)).2.2.2.1,
    (C6_transition_contract ⟨(initialize_progress_tracking ["A", "B"] 0).data, none⟩
      "A" "success" 1 (by decide) (by decide)).2.2.2.2⟩

/-- Claim C10: an unrecognized status string removes the researcher from
every partition and inserts it into none — afterwards it appears in no
partition, the stored total is unchanged, and the recomputed counts sum
to one less than the total, so they no longer sum to the total task
count. -/
theorem C10_invalid_status_breaks_invariant (rp : RunnerProgress)
    (name status : String) (now : Nat)
    (hs : ¬ validStatus status) (hnd : (statusLists rp.data).Nodup)
    (hmem : name ∈ statusLists rp.data)
    (hsum : rp.data.pending.length + rp.data.success.length +
        rp.data.failed_retrying.length + rp.data.failed_exhausted.length =
      rp.data.total_researchers) :
    name ∉ statusLists (update_researcher_status rp name status now).data ∧
    (update_researcher_status rp name status now).data.total_researchers =
      rp.data.total_researchers ∧
    (update_researcher_status rp name status now).data.counts.pending +
        (update_researcher_status rp name status now).data.counts.success +
        (update_researcher_status rp name status now).data.counts.failed_retrying +
        (update_researcher_status rp name status now).data.counts.failed_exhausted + 1 =
      rp.data.total_researchers ∧
    (update_researcher_status rp name status now).data.counts.pending +
        (update_researcher_status rp name status now).data.counts.success +
        (update_researcher_status rp name status now).data.counts.failed_retrying +
        (update_researcher_status rp name status now).data.counts.failed_exhausted ≠
      rp.data.total_researchers := by
  simp only [validStatus, not_or] at hs
  obtain ⟨hs1, hs2, hs3, hs4⟩ := hs
  have h12 := hnd.of_append_left
  have he := hnd.of_append_right
  have hpps := h12.of_append_left
  have hf := h12.of_append_right
  have hp := hpps.of_append_left
  have hsc := hpps.of_append_right
  have hlists : statusLists (update_researcher_status rp name status now).data =
      rp.data.pending.erase name ++ rp.data.success.erase name ++
        rp.data.failed_retrying.erase name ++ rp.data.failed_exhausted.erase name := by
    simp [statusLists, update_researcher_status, insertByStatus,
      removeFromStatusLists, recomputeCounts, hs1, hs2, hs3, hs4]
  have hcounts : (update_researcher_status rp name status now).data.counts =
      ⟨(rp.data.pending.erase name).length, (rp.data.success.erase name).length,
        (rp.data.failed_retrying.erase name).length,
        (rp.data.failed_exhausted.erase name).length⟩ := by
    simp [update_researcher_status, insertByStatus, removeFromStatusLists,
      recomputeCounts, hs1, hs2, hs3, hs4]
  have hc : rp.data.pending.count name + rp.data.success.count name +
      rp.data.failed_retrying.count name + rp.data.failed_exhausted.count name = 1 := by
    have h1 := List.count_eq_one_of_mem hnd hmem
    simp only [statusLists, List.count_append] at h1
    omega
  have per : ∀ l : List String,
      (l.count name = 0 ∧ (l.erase name).length = l.length) ∨
        (1 ≤ l.count name ∧ (l.erase name).length + 1 = l.length) := by
    intro l
    by_cases hm : name ∈ l
    · right
      refine ⟨List.count_pos_iff.mpr hm, ?_⟩
      have h1 := List.length_erase_of_mem hm
      have h3 := List.length_pos_of_mem hm
      omega
    · left
      exact ⟨List.count_eq_zero.mpr hm, by rw [List.erase_of_not_mem hm]⟩
  have hsumkey : (rp.data.pending.erase name).length + (rp.data.success.erase name).length +
      (rp.data.failed_retrying.erase name).length +
      (rp.data.failed_exhausted.erase name).length + 1 =
        rp.data.pending.length + rp.data.success.length +
          rp.data.failed_retrying.length + rp.data.failed_exhausted.length := by
    rcases per rp.data.pending with ⟨c1, l1⟩ | ⟨c1, l1⟩ <;>
      rcases per rp.data.success with ⟨c2, l2⟩ | ⟨c2, l2⟩ <;>
        rcases per rp.data.failed_retrying with ⟨c3, l3⟩ | ⟨c3, l3⟩ <;>
          rcases per rp.data.failed_exhausted with ⟨c4, l4⟩ | ⟨c4, l4⟩ <;>
            omega
  refine ⟨?_, update_total_eq rp name status now, ?_, ?_⟩
  · rw [hlists]
    simp only [List.mem_append, not_or]
    exact ⟨⟨⟨hp.not_mem_erase, hsc.not_mem_erase⟩, hf.not_mem_erase⟩, he.not_mem_erase⟩
  · rw [hcounts]
    dsimp only
    omega
  · rw [hcounts]
    dsimp only
    omega

/-- Witness for C10: updating "D" with the unrecognized status "bogus" in
the freshly initialized single-task state removes "D" from every
partition while the total stays 1 and the counts sum to 0. -/
theorem C10_invalid_status_breaks_invariant_witness :
    "D" ∉ statusLists (update_researcher_status (initialize_progress_tracking ["D"] 0)
        "D" "bogus" 2).data ∧
    (update_researcher_status (initialize_progress_tracking ["D"] 0)
        "D" "bogus" 2).data.counts.pending +
      (update_researcher_status (initialize_progress_tracking ["D"] 0)
        "D" "bogus" 2).data.counts.success +
      (update_researcher_status (initialize_progress_tracking ["D"] 0)
        "D" "bogus" 2).data.counts.failed_retrying +
      (update_researcher_status (initialize_progress_tracking ["D"] 0)
        "D" "bogus" 2).data.counts.failed_exhausted ≠
        (initialize_progress_tracking ["D"] 0).data.total_researchers :=
  ⟨(C10_invalid_status_breaks_invariant (initialize_progress_tracking ["D"] 0)
      "D" "bogus" 2 (by decide) (by decide) (by decide) (by decide)).1,
    (C10_invalid_status_breaks_invariant (initialize_progress_tracking ["D"] 0)
      "D" "bogus" 2 (by decide) (by decide) (by decide) (by decide)).2.2.2⟩

end ScholarMine
